import Mathlib

/-!
Verification development for the medical multi-agent orchestration core
(`Agent/flow.py`, `Agent/triage_node.py`, `Agent/recommend_node.py`,
`Agent/patient_model.py`).

The Python code is shallowly embedded: pure fragments become Lean
functions, external collaborators (the LLM classifier, the MCP client
construction, the two triage coroutines, the regex question extractor)
become explicit parameters, and the langgraph state-merge declared by the
`State` TypedDict annotations becomes an explicit merge function.
-/

/-- Chat message (langchain `HumanMessage`/`AnyMessage`): only the
`content` attribute is read by the orchestration core. -/
structure Message where
  content : String
deriving DecidableEq, Repr

/-- Session state, embedding the `State` TypedDict of `Agent/flow.py`
(lines 48-70).  `total=False` in the Python declaration makes every field
optional; the `messages` channel is declared `Annotated[list[AnyMessage],
operator.add]` and defaults to the empty list, so it is kept as a plain
list here.  Python `Dict[str, Any]` values are modelled as association
lists, `List[Dict[str, Any]]` as lists of association lists. -/
structure State where
  messages : List Message := []
  type : Option String := none
  patient_id : Option String := none
  disease_data : Option (List (String × String)) := none
  risk_factor_count : Option Int := none
  analysis_result : Option (List (String × String)) := none
  diagnostic_tests : Option (List (List (String × String))) := none
  user_input : Option String := none
  triage1_result : Option String := none
  triage2_result : Option String := none
  combined_analysis : Option String := none
  has_triaged : Option Bool := none
  triage_questions : Option String := none
deriving DecidableEq, Repr

/-- Partial state update returned by a node: each key may be present or
absent (a Python dict with a subset of the `State` keys). -/
structure Delta where
  messages : Option (List Message) := none
  type : Option String := none
  patient_id : Option String := none
  disease_data : Option (List (String × String)) := none
  risk_factor_count : Option Int := none
  analysis_result : Option (List (String × String)) := none
  diagnostic_tests : Option (List (List (String × String))) := none
  user_input : Option String := none
  triage1_result : Option String := none
  triage2_result : Option String := none
  combined_analysis : Option String := none
  has_triaged : Option Bool := none
  triage_questions : Option String := none
deriving DecidableEq, Repr

/-- Last-write-wins for a single optional channel: a value present in the
delta replaces the stored one, an absent key leaves it unchanged. -/
def ow {α : Type} (dv sv : Option α) : Option α :=
  match dv with
  | some v => some v
  | none => sv

/-- Merge of a node delta into the session state, as declared by the
`State` TypedDict of `Agent/flow.py`: the `messages` channel is annotated
with `operator.add` and is merged by concatenation; every other channel is
replaced when the delta carries the key and kept otherwise. -/
def applyDelta (s : State) (d : Delta) : State where
  messages := s.messages ++ d.messages.getD []
  type := ow d.type s.type
  patient_id := ow d.patient_id s.patient_id
  disease_data := ow d.disease_data s.disease_data
  risk_factor_count := ow d.risk_factor_count s.risk_factor_count
  analysis_result := ow d.analysis_result s.analysis_result
  diagnostic_tests := ow d.diagnostic_tests s.diagnostic_tests
  user_input := ow d.user_input s.user_input
  triage1_result := ow d.triage1_result s.triage1_result
  triage2_result := ow d.triage2_result s.triage2_result
  combined_analysis := ow d.combined_analysis s.combined_analysis
  has_triaged := ow d.has_triaged s.has_triaged
  triage_questions := ow d.triage_questions s.triage_questions

/-- Character-list prefix test (Python substring search, helper). -/
def charsLeadOf : List Char → List Char → Bool
  | [], _ => true
  | _ :: _, [] => false
  | a :: as, b :: bs => a == b && charsLeadOf as bs

/-- Contiguous-occurrence test on character lists (helper for the Python
`in` operator on strings). -/
def charsOccurIn (pat : List Char) : List Char → Bool
  | [] => charsLeadOf pat []
  | l@(_ :: rest) => charsLeadOf pat l || charsOccurIn pat rest

/-- Python `pat in s` for strings: `pat` occurs contiguously in `s`. -/
def strContains (s pat : String) : Bool :=
  charsOccurIn pat.data s.data

/-- Node identifier list `nodes` of `Agent/flow.py` line 39. -/
def nodes : List String := ["triage_node", "recommend_node", "agen_node", "other"]

/-- The langgraph terminal sentinel `END` (`langgraph.constants.END`). -/
def ENDNode : String := "__end__"

/-- User text of the turn as read by `supervisor_node`
(`Agent/flow.py` lines 123-124): content of the last message, or the
empty string when there are no messages. -/
def lastUserInput (s : State) : String :=
  match s.messages.getLast? with
  | some m => m.content
  | none => ""

/-- Fresh-symptom-report markers tested by the context rule of
`supervisor_node` (`Agent/flow.py` line 134). -/
def freshMarkers : List String := ["患者出现", "患者主诉", "患者症状"]

/-- Whether the turn text contains one of the fresh-symptom-report
markers (`Agent/flow.py` line 134). -/
def containsFreshMarker (u : String) : Bool :=
  freshMarkers.any (fun m => strContains u m)

/-- Python truthiness of `state.get("analysis_result")`
(`Agent/flow.py` line 129): an absent key and an empty dict are both
falsy, a non-empty dict is truthy. -/
def has_diagnosis_of (s : State) : Bool :=
  match s.analysis_result with
  | some d => !d.isEmpty
  | none => false

/-- Validation of the classifier output against the node list
(`Agent/flow.py` lines 163-168): an in-set answer is kept, anything else
is replaced by `"other"`. -/
def classify_result (typeRes : String) : String :=
  if typeRes ∈ nodes then typeRes else "other"

/-- Embedding of `supervisor_node` (`Agent/flow.py` lines 116-168).  The
LLM classifier is the external parameter `classify`; the returned flag
records whether the classifier was invoked, so the forced-override path
is distinguishable from the classifier path.  The context rule (lines
128-136) fires before the classifier: already triaged, no diagnosis yet,
and no fresh-symptom marker in the turn text force the route to
`recommend_node`. -/
def supervisor_node (s : State) (classify : String → String) : String × Bool :=
  if s.has_triaged.getD false && !(has_diagnosis_of s) then
    if containsFreshMarker (lastUserInput s) then
      (classify_result (classify (lastUserInput s)), true)
    else ("recommend_node", false)
  else (classify_result (classify (lastUserInput s)), true)

/-- Embedding of `routing_func` (`Agent/flow.py` lines 174-187): the
conditional edge maps the stored `type` to a node name, defaulting to
`other_node`. -/
def routing_func (t : String) : String :=
  if t = "triage_node" then "triage_node"
  else if t = "recommend_node" then "recommend_node"
  else if t = "agen_node" then "agen_node"
  else if t = ENDNode then ENDNode
  else "other_node"

/-- Outcome of an async task together with its completion time (embedding
of a coroutine handed to `asyncio.gather`): `result` is the value returned
or the exception message raised, `time` the instant the task reaches its
terminal state. -/
structure TimedTask where
  time : Nat
  result : Except String String
deriving Repr

/-- Semantics of `asyncio.gather(t1, t2)` as used at
`Agent/triage_node.py` lines 115-118 (no `return_exceptions=True`): when
both coroutines succeed, gather completes once the slower one does and
delivers the pair in argument order; when a coroutine raises, the
exception propagates out of the awaiting call at the moment it occurs,
and the sibling result is not delivered. -/
def gatherTimed (t1 t2 : TimedTask) : Nat × Except String (String × String) :=
  match t1.result, t2.result with
  | Except.ok a, Except.ok b => (max t1.time t2.time, Except.ok (a, b))
  | Except.error e, Except.ok _ => (t1.time, Except.error e)
  | Except.ok _, Except.error e => (t2.time, Except.error e)
  | Except.error e1, Except.error e2 =>
      (min t1.time t2.time, Except.error (if t1.time ≤ t2.time then e1 else e2))

/-- Partial state returned by `ParallelTriageNode.__call__`
(`Agent/triage_node.py` lines 123-127). -/
structure ParallelResult where
  triage1_result : String
  triage2_result : String
  combined_analysis : String
deriving DecidableEq, Repr

/-- Embedding of `ParallelTriageNode._combine_results`
(`Agent/triage_node.py` lines 196-208): the f-string places the second
agent's output before the first agent's output, in that fixed order. -/
def combine_results (triage1_result triage2_result : String) : String :=
  "\n\n\n" ++ triage2_result ++ "\n\n" ++ triage1_result ++ "\n\n"

/-- Embedding of `ParallelTriageNode.__call__` (`Agent/triage_node.py`
lines 102-127): the two agent coroutines (external collaborators) are the
parameters `t1` and `t2`; their outcomes flow through `asyncio.gather`
and, on success, through `_combine_results`. -/
def parallelTriageCall (t1 t2 : TimedTask) : Nat × Except String ParallelResult :=
  let g := gatherTimed t1 t2
  (g.1, g.2.map (fun p =>
    { triage1_result := p.1, triage2_result := p.2,
      combined_analysis := combine_results p.1 p.2 }))

/-- Error-path delta of the `triage_node` adapter
(`Agent/triage_node.py` lines 495-501): the exception is caught and the
returned dict carries only a `messages` key with the user-visible error
text. -/
def triage_error_delta (e : String) : Delta :=
  { messages := some [⟨"分诊过程中出现错误: " ++ e⟩] }

/-- Embedding of the `triage_node` adapter (`Agent/triage_node.py` lines
341-501).  `outcome` is the result of the whole try-body: component
lookup, bridged parallel execution, timeout (any raised exception becomes
`Except.error` with its message).  `extractQ` is the regex-based question
extraction of lines 437-440, an external pure function of
`triage1_result`.  On success the returned delta (lines 486-493) carries
the combined analysis as the reply message, both agent results, the
extracted questions, and sets `has_triaged` to true; on any exception the
handler of lines 495-501 returns only an error message. -/
def triage_node (outcome : Except String ParallelResult)
    (extractQ : String → String) : Delta :=
  match outcome with
  | Except.ok r =>
      { messages := some [⟨r.combined_analysis⟩],
        triage1_result := some r.triage1_result,
        triage2_result := some r.triage2_result,
        combined_analysis := some r.combined_analysis,
        has_triaged := some true,
        triage_questions := some (extractQ r.triage1_result) }
  | Except.error e => triage_error_delta e

/-- Embedding of the `recommend_node` adapter (`Agent/recommend_node.py`
lines 649-728).  `outcome` is the result of the try-body (the medical
analysis node run, an external collaborator returning a delta); on any
exception the handler of lines 722-728 returns only the user-visible
error message. -/
def recommend_node (outcome : Except String Delta) : Delta :=
  match outcome with
  | Except.ok d => d
  | Except.error e => { messages := some [⟨"分析过程中出现错误: " ++ e⟩] }

/-- Observable outcome of one sync-to-async bridged call. -/
inductive BridgeOutcome where
  | completed (value : String)
  | timedOut
  | blocked
deriving DecidableEq, Repr

/-- Timeout used on the worker-thread path of the triage bridge
(`Agent/triage_node.py` line 406: `future.result(timeout=180)`). -/
def triageTimeout : Nat := 180

/-- Worker-thread path of the sync-to-async bridge in `triage_node`
(`Agent/triage_node.py` lines 379-406), taken when the calling thread
already hosts a running event loop: the coroutine runs on a private loop
in a pool thread and the caller waits with `future.result(timeout=180)`
inside a `with ThreadPoolExecutor` block.  Completion within the
deadline yields the value.  Completion after the deadline surfaces the
timeout error, late: `future.result` raises at 180 seconds, and the
context exit joins the worker, which terminates once the operation does.
An operation that never completes (`opTime = none`) blocks the call
forever: the `TimeoutError` is raised at 180 seconds, but the context
exit calls `Executor.shutdown(wait=True)`, which joins the worker thread
stuck in `run_until_complete` — a join that never returns, so the error
never reaches the caller. -/
def bridgeThreadPath (opTime : Option Nat) (value : String) : BridgeOutcome :=
  match opTime with
  | some t => if t ≤ triageTimeout then BridgeOutcome.completed value
              else BridgeOutcome.timedOut
  | none => BridgeOutcome.blocked

/-- Direct path of the sync-to-async bridge in `triage_node`
(`Agent/triage_node.py` lines 408-425), taken when no event loop is
running: the coroutine is driven by `loop.run_until_complete` with no
timeout wrapper, so any completing operation yields its value — however
late — and an operation that never completes blocks the call forever. -/
def bridgeDirectPath (opTime : Option Nat) (value : String) : BridgeOutcome :=
  match opTime with
  | some _ => BridgeOutcome.completed value
  | none => BridgeOutcome.blocked

/-- Structured triage record (`TriageInfo` of `Agent/patient_model.py`
lines 18-24). -/
structure TriageInfo where
  triage_level : Option String := none
  recommended_department : Option String := none
  triage_basis : Option String := none
  triage_time : Option String := none
  triage_questions : Option String := none
deriving DecidableEq, Repr

/-- Structured diagnosis record (`DiagnosisInfo` of
`Agent/patient_model.py` lines 27-34); the float `confidence` is modelled
as an integer-valued score, only its storage is at stake here. -/
structure DiagnosisInfo where
  most_likely_disease : Option String := none
  confidence : Option Int := none
  disease_details : Option (List (String × String)) := none
  recommended_tests : Option (List (List (String × String))) := none
  submitted_tests : Option (List (List (String × String))) := none
  diagnosis_time : Option String := none
deriving DecidableEq, Repr

/-- Expert-consultation record (`ExpertConsultation` of
`Agent/patient_model.py` lines 37-45). -/
structure ExpertConsultation where
  consultation_date : Option String := none
  diagnostic_expert_opinion : Option String := none
  imaging_expert_opinion : Option String := none
  treatment_expert_opinion : Option String := none
  final_diagnosis : Option String := none
  treatment_plan : Option String := none
  prognosis : Option String := none
deriving DecidableEq, Repr

/-- Full per-patient record (`PatientData` of `Agent/patient_model.py`
lines 48-68). -/
structure PatientData where
  patient_id : String
  created_at : String
  updated_at : String
  patient_name : Option String := none
  patient_age : Option Int := none
  patient_gender : Option String := none
  initial_symptoms : Option String := none
  patient_history : Option String := none
  test_results : Option String := none
  triage_info : Option TriageInfo := none
  diagnosis_info : Option DiagnosisInfo := none
  expert_consultation : Option ExpertConsultation := none
  conversation_history : List (List (String × String)) := []
deriving DecidableEq, Repr

/-- The persistence medium of `PatientDataManager`: one JSON file per
patient id, modelled as a map from id to the stored record (JSON
serialisation of the pydantic model with `exclude_none=False` followed by
re-validation is a faithful round trip and is modelled as identity). -/
def PatientStore : Type := String → Option PatientData

/-- Embedding of `PatientDataManager.save_patient_data`
(`Agent/patient_model.py` lines 106-134): the record's `updated_at` field
is overwritten with the current time (line 118) and the result is written
to the file keyed by `patient_id`.  Returns the updated store and the
record as written. -/
def save_patient_data (store : PatientStore) (pd : PatientData)
    (now : String) : PatientStore × PatientData :=
  let pd' := { pd with updated_at := now }
  (fun i => if i = pd.patient_id then some pd' else store i, pd')

/-- Embedding of `PatientDataManager.load_patient_data`
(`Agent/patient_model.py` lines 136-159): read the file for the id, or
`none` when it does not exist. -/
def load_patient_data (store : PatientStore) (patient_id : String) :
    Option PatientData :=
  store patient_id

/-- Module-level cache of `Agent/triage_node.py` lines 267-270: the
globals `_llm`, `_mcp_client`, `_mcp_tools`, all initially `None`.
Handles are identified by abstract tokens (`Nat`); `_mcp_tools` is a list
of tool handles, with `some []` distinct from `none` because the failure
path of the Python code stores an empty list there. -/
structure TriageCache where
  llm : Option Nat := none
  mcp_client : Option Nat := none
  mcp_tools : Option (List Nat) := none
deriving DecidableEq, Repr

/-- Embedding of `get_or_create_components` (`Agent/triage_node.py` lines
272-339).  `newLlm` is the handle `create_llm()` would return and
`mcpOutcome` the result of the MCP construction attempt
(`initialize_mcp_client`, run on whichever event-loop path applies; both
paths store the same outcome).  The guard re-enters construction whenever
any of the three globals is `None`; on MCP failure the handler sets
`_mcp_client = None` and `_mcp_tools = []`.  The returned flag records
whether a construction attempt was performed on this call. -/
def get_or_create_components (st : TriageCache) (newLlm : Nat)
    (mcpOutcome : Except String (Nat × List Nat)) : TriageCache × Bool :=
  if st.mcp_client.isNone || st.mcp_tools.isNone || st.llm.isNone then
    match mcpOutcome with
    | Except.ok ct =>
        ({ llm := some newLlm, mcp_client := some ct.1,
           mcp_tools := some ct.2 }, true)
    | Except.error _ =>
        ({ llm := some newLlm, mcp_client := none,
           mcp_tools := some [] }, true)
  else (st, false)

/-- Module-level cache of `Agent/recommend_node.py` lines 497-500: the
globals `_mcp_client`, `_mcp_tools`, `_medical_analysis_node`.  The node
handle is identified by the tool list it was constructed with
(`MedicalAnalysisNode(mcp_tools=_mcp_tools)`). -/
structure RecommendCache where
  mcp_client : Option Nat := none
  mcp_tools : Option (List Nat) := none
  node : Option (List Nat) := none
deriving DecidableEq, Repr

/-- Embedding of `get_or_create_medical_analysis_node`
(`Agent/recommend_node.py` lines 502-570).  When the node global is still
`None`, the MCP client is initialised if needed (on failure the handler
sets `_mcp_client = None`, `_mcp_tools = []`) and then — unconditionally,
line 567 — a `MedicalAnalysisNode` is built from whatever `_mcp_tools`
holds and cached.  Returns the new cache, the node handle handed to the
caller, and whether an MCP construction attempt was performed on this
call. -/
def get_or_create_medical_analysis_node (st : RecommendCache)
    (mcpOutcome : Except String (Nat × List Nat)) :
    RecommendCache × List Nat × Bool :=
  match st.node with
  | some n => (st, n, false)
  | none =>
      let (client, tools, attempted) :=
        if st.mcp_client.isNone || st.mcp_tools.isNone then
          match mcpOutcome with
          | Except.ok ct => (some ct.1, some ct.2, true)
          | Except.error _ => ((none : Option Nat), some ([] : List Nat), true)
        else (st.mcp_client, st.mcp_tools, false)
      let n := tools.getD []
      ({ mcp_client := client, mcp_tools := tools, node := some n },
       n, attempted)

/-- Initial triage-locator cache: all three globals `None`. -/
def triageCacheInit : TriageCache := {}

/-- Initial recommend-locator cache: all three globals `None`. -/
def recommendCacheInit : RecommendCache := {}

/-- Session state after a successful triage turn, used as a concrete
routing scenario: triaged, no diagnosis yet, and the new message is an
answer to the triage questions rather than a fresh symptom report. -/
def overrideState : State :=
  { messages := [⟨"有糖尿病、高血压，没有吸烟史"⟩],
    analysis_result := some [],
    has_triaged := some true }

/-- C1: with `has_triaged = true`, an empty (or absent) `analysis_result`
and no fresh-symptom marker in the turn text, `supervisor_node` returns
the delta `type = "recommend_node"` without ever invoking the classifier,
whatever the classifier would have answered. -/
theorem supervisor_forced_override (s : State) (classify : String → String)
    (h1 : s.has_triaged = some true)
    (h2 : s.analysis_result = none ∨ s.analysis_result = some [])
    (h3 : containsFreshMarker (lastUserInput s) = false) :
    supervisor_node s classify = ("recommend_node", false) := by
  have hd : has_diagnosis_of s = false := by
    rcases h2 with h | h <;> simp [has_diagnosis_of, h]
  simp [supervisor_node, h1, hd, h3]

/-- Witness for C1: on the concrete post-triage state, even a classifier
that always answers `triage_node` is overridden (and never called). -/
theorem supervisor_forced_override_witness :
    supervisor_node overrideState (fun _ => "triage_node")
      = ("recommend_node", false) :=
  supervisor_forced_override overrideState (fun _ => "triage_node")
    rfl (Or.inr rfl) (by decide)

/-- C2: when the dispatched node's body raises, the exception is caught
and turned into a messages-only error delta, so the merged post-turn
state is exactly the prior state with the user-visible error message
appended to the history — every other field keeps its prior value.  Shown
for both the triage and the recommend adapters. -/
theorem node_failure_preserves_state (s : State) (e : String)
    (extractQ : String → String) :
    applyDelta s (triage_node (Except.error e) extractQ)
      = { s with messages := s.messages ++ [⟨"分诊过程中出现错误: " ++ e⟩] } ∧
    applyDelta s (recommend_node (Except.error e))
      = { s with messages := s.messages ++ [⟨"分析过程中出现错误: " ++ e⟩] } := by
  constructor <;>
    simp [applyDelta, triage_node, triage_error_delta, recommend_node, ow]

/-- C3 counterexample: with the first agent raising and the second
succeeding, `ParallelTriageNode.__call__` does not return a state with a
failure marker — the `asyncio.gather` call (no `return_exceptions`)
propagates the exception out of the dispatcher, discarding the sibling's
successful result. -/
theorem parallel_one_failure_cex :
    (parallelTriageCall ⟨5, Except.error "工具调用失败"⟩
        ⟨7, Except.ok "分诊级别：Ⅱ级（危重）"⟩).2
      = Except.error "工具调用失败" ∧
    ((parallelTriageCall ⟨5, Except.error "工具调用失败"⟩
        ⟨7, Except.ok "分诊级别：Ⅱ级（危重）"⟩).2).isOk = false :=
  ⟨rfl, rfl⟩

/-- C3 amended: whenever exactly one of the two triage tasks raises, the
dispatcher call itself raises that exception (in either slot order); no
per-slot failure marker is produced and the sibling's result is not
delivered.  The exception is only converted into an error delta by the
enclosing `triage_node` adapter. -/
theorem parallel_one_failure_raises (e r : String) (ta tb : Nat) :
    (parallelTriageCall ⟨ta, Except.error e⟩ ⟨tb, Except.ok r⟩).2
        = Except.error e ∧
    (parallelTriageCall ⟨ta, Except.ok r⟩ ⟨tb, Except.error e⟩).2
        = Except.error e :=
  ⟨rfl, rfl⟩

/-- C4 counterexample: on the direct (no-running-loop) path of the triage
bridge, an operation that never completes blocks the call forever instead
of raising a timeout error — `loop.run_until_complete` is not wrapped in
any timeout. -/
theorem bridge_direct_no_timeout_cex :
    bridgeDirectPath none "分诊结果" = BridgeOutcome.blocked ∧
    bridgeDirectPath none "分诊结果" ≠ BridgeOutcome.timedOut :=
  ⟨rfl, by decide⟩

/-- C4 amended: an operation that never completes blocks the bridged
call forever on both paths — the direct `run_until_complete` path has no
timeout at all, and on the worker-thread path the `TimeoutError` raised
by `future.result(timeout=180)` is held up by the executor context exit,
which joins the worker thread stuck on the never-finishing operation.  A
timeout error reaches the caller only when the operation completes after
the 180-second deadline (and the direct path then returns the late value
instead). -/
theorem bridge_never_completing_blocks (v : String) (t : Nat) :
    bridgeThreadPath none v = BridgeOutcome.blocked ∧
    bridgeDirectPath none v = BridgeOutcome.blocked ∧
    bridgeThreadPath (some (triageTimeout + t + 1)) v
        = BridgeOutcome.timedOut ∧
    bridgeDirectPath (some (triageTimeout + t + 1)) v
        = BridgeOutcome.completed v := by
  have h : ¬ (triageTimeout + t + 1 ≤ triageTimeout) := by omega
  exact ⟨rfl, rfl, by simp [bridgeThreadPath, h], rfl⟩

/-- C5: routing is total — for every classifier output string the
validation step plus the conditional edge produce exactly one of the four
worker nodes, and every output outside the fixed node list falls back to
`other_node`. -/
theorem routing_total (typeRes : String) :
    routing_func (classify_result typeRes)
        ∈ (["triage_node", "recommend_node", "agen_node", "other_node"] :
            List String) ∧
    (typeRes ∉ nodes → routing_func (classify_result typeRes) = "other_node") := by
  by_cases h : typeRes ∈ nodes
  · refine ⟨?_, fun hn => absurd h hn⟩
    have hc : classify_result typeRes = typeRes := by
      simp [classify_result, h]
    rw [hc]
    simp only [nodes, List.mem_cons, List.not_mem_nil, or_false] at h
    rcases h with h | h | h | h <;> subst h <;> decide
  · have hc : classify_result typeRes = "other" := by
      simp [classify_result, h]
    rw [hc]
    exact ⟨by decide, fun _ => by decide⟩

/-- Witness for C5: a plain knowledge question, classified as some
out-of-set string, deterministically lands on the default node. -/
theorem routing_total_witness :
    routing_func (classify_result "血常规结果分析")
        ∈ (["triage_node", "recommend_node", "agen_node", "other_node"] :
            List String) ∧
    routing_func (classify_result "血常规结果分析") = "other_node" :=
  ⟨(routing_total "血常规结果分析").1,
   (routing_total "血常规结果分析").2 (by decide)⟩

/-- C6: the state merge concatenates the message history (prior messages
kept as the prefix, delta messages appended) and treats every other
channel as last-write-wins: a key present in the delta replaces the prior
value, an absent key keeps it. -/
theorem state_merge_semantics (s : State) (d : Delta) :
    (applyDelta s d).messages = s.messages ++ d.messages.getD [] ∧
    (applyDelta s d).type = (if (d.type).isSome then d.type else s.type) ∧
    (applyDelta s d).patient_id
      = (if (d.patient_id).isSome then d.patient_id else s.patient_id) ∧
    (applyDelta s d).disease_data
      = (if (d.disease_data).isSome then d.disease_data else s.disease_data) ∧
    (applyDelta s d).risk_factor_count
      = (if (d.risk_factor_count).isSome then d.risk_factor_count
         else s.risk_factor_count) ∧
    (applyDelta s d).analysis_result
      = (if (d.analysis_result).isSome then d.analysis_result
         else s.analysis_result) ∧
    (applyDelta s d).diagnostic_tests
      = (if (d.diagnostic_tests).isSome then d.diagnostic_tests
         else s.diagnostic_tests) ∧
    (applyDelta s d).user_input
      = (if (d.user_input).isSome then d.user_input else s.user_input) ∧
    (applyDelta s d).triage1_result
      = (if (d.triage1_result).isSome then d.triage1_result
         else s.triage1_result) ∧
    (applyDelta s d).triage2_result
      = (if (d.triage2_result).isSome then d.triage2_result
         else s.triage2_result) ∧
    (applyDelta s d).combined_analysis
      = (if (d.combined_analysis).isSome then d.combined_analysis
         else s.combined_analysis) ∧
    (applyDelta s d).has_triaged
      = (if (d.has_triaged).isSome then d.has_triaged else s.has_triaged) ∧
    (applyDelta s d).triage_questions
      = (if (d.triage_questions).isSome then d.triage_questions
         else s.triage_questions) := by
  have how : ∀ {α : Type} (dv sv : Option α),
      ow dv sv = if dv.isSome then dv else sv := by
    intro α dv sv
    cases dv <;> rfl
  exact ⟨rfl, how _ _, how _ _, how _ _, how _ _, how _ _, how _ _, how _ _,
    how _ _, how _ _, how _ _, how _ _, how _ _⟩

/-- C7: when both triage tasks succeed, the dispatcher completes exactly
when the slower task does (no early partial delivery), each result lands
in the slot fixed by argument position whatever the two completion times
are, and the combined text places the second agent's output before the
first agent's output. -/
theorem parallel_fixed_order (a b : String) (ta tb : Nat) :
    parallelTriageCall ⟨ta, Except.ok a⟩ ⟨tb, Except.ok b⟩
      = (max ta tb,
         Except.ok { triage1_result := a, triage2_result := b,
                     combined_analysis :=
                       "\n\n\n" ++ b ++ "\n\n" ++ a ++ "\n\n" }) ∧
    ta ≤ max ta tb ∧ tb ≤ max ta tb :=
  ⟨rfl, Nat.le_max_left ta tb, Nat.le_max_right ta tb⟩

/-- Concrete patient record for the round-trip counterexample. -/
def pdSample : PatientData :=
  { patient_id := "550e8400-e29b-41d4-a716-446655440000",
    created_at := "2025-10-20T10:00:00",
    updated_at := "2025-10-20T10:00:00",
    initial_symptoms := some "患者皮肤红肿、发热、气促" }

/-- C8 counterexample: saving a record and loading it back under the same
id does not return the record unchanged — `save_patient_data` overwrites
`updated_at` with the save time before writing, so the loaded record
differs from the saved argument whenever the clock moved. -/
theorem checkpoint_roundtrip_cex :
    load_patient_data
        (save_patient_data (fun _ => none) pdSample "2025-10-21T09:30:00").1
        "550e8400-e29b-41d4-a716-446655440000"
      ≠ some pdSample := by
  decide

/-- C8 amended: saving then loading under the same id observes exactly
the record as written: the state with its `updated_at` field replaced by
the save time, every other field unchanged. -/
theorem checkpoint_roundtrip_timestamp (store : PatientStore)
    (pd : PatientData) (now : String) :
    load_patient_data (save_patient_data store pd now).1 pd.patient_id
      = some { pd with updated_at := now } := by
  simp [load_patient_data, save_patient_data]

/-- C9 counterexample: after a first call of
`get_or_create_medical_analysis_node` in which the MCP construction
fails, a second call — even one whose construction would now succeed —
performs no construction attempt and returns the cached node built from
the empty tool list: the failure is cached permanently. -/
theorem locator_failure_cached_cex :
    (get_or_create_medical_analysis_node
        (get_or_create_medical_analysis_node recommendCacheInit
           (Except.error "连接失败")).1
        (Except.ok (5, [1, 2]))).2.2 = false ∧
    (get_or_create_medical_analysis_node
        (get_or_create_medical_analysis_node recommendCacheInit
           (Except.error "连接失败")).1
        (Except.ok (5, [1, 2]))).2.1 = [] := by
  decide

/-- C9 amended: both locators cache a successful construction (later
calls reconstruct nothing and return the same handles);
`get_or_create_components` does not cache a failure — its next call
attempts construction again — but
`get_or_create_medical_analysis_node` caches the node built from empty
tools after a failed MCP construction and never re-attempts it. -/
theorem locator_caching (newLlm1 newLlm2 c : Nat) (ts : List Nat)
    (e : String) (out2 : Except String (Nat × List Nat)) :
    get_or_create_components
        (get_or_create_components triageCacheInit newLlm1
           (Except.ok (c, ts))).1 newLlm2 out2
      = ((get_or_create_components triageCacheInit newLlm1
           (Except.ok (c, ts))).1, false) ∧
    (get_or_create_components
        (get_or_create_components triageCacheInit newLlm1
           (Except.error e)).1 newLlm2 out2).2 = true ∧
    get_or_create_medical_analysis_node
        (get_or_create_medical_analysis_node recommendCacheInit
           (Except.ok (c, ts))).1 out2
      = ((get_or_create_medical_analysis_node recommendCacheInit
           (Except.ok (c, ts))).1, ts, false) ∧
    (get_or_create_medical_analysis_node
        (get_or_create_medical_analysis_node recommendCacheInit
           (Except.error e)).1 out2).2.2 = false := by
  refine ⟨?_, ?_, ?_, ?_⟩ <;>
    cases out2 <;>
      simp [get_or_create_components, get_or_create_medical_analysis_node,
        triageCacheInit, recommendCacheInit]

/-- C10: the error path of the triage adapter returns a delta whose only
present key is `messages`; in particular `has_triaged` stays absent, so
the merged state keeps its prior `has_triaged` (the post-triage routing
override is not armed by a failed triage), while the success path sets
`has_triaged = true`. -/
theorem triage_failure_frame (s : State) (e : String) (r : ParallelResult)
    (extractQ : String → String) :
    (triage_node (Except.error e) extractQ).messages
        = some [⟨"分诊过程中出现错误: " ++ e⟩] ∧
    (triage_node (Except.error e) extractQ).type = none ∧
    (triage_node (Except.error e) extractQ).patient_id = none ∧
    (triage_node (Except.error e) extractQ).disease_data = none ∧
    (triage_node (Except.error e) extractQ).risk_factor_count = none ∧
    (triage_node (Except.error e) extractQ).analysis_result = none ∧
    (triage_node (Except.error e) extractQ).diagnostic_tests = none ∧
    (triage_node (Except.error e) extractQ).user_input = none ∧
    (triage_node (Except.error e) extractQ).triage1_result = none ∧
    (triage_node (Except.error e) extractQ).triage2_result = none ∧
    (triage_node (Except.error e) extractQ).combined_analysis = none ∧
    (triage_node (Except.error e) extractQ).has_triaged = none ∧
    (triage_node (Except.error e) extractQ).triage_questions = none ∧
    (applyDelta s (triage_node (Except.error e) extractQ)).has_triaged
        = s.has_triaged ∧
    (triage_node (Except.ok r) extractQ).has_triaged = some true := by
  refine ⟨rfl, rfl, rfl, rfl, rfl, rfl, rfl, rfl, rfl, rfl, rfl, rfl, rfl,
    ?_, rfl⟩
  simp [applyDelta, triage_node, triage_error_delta, ow]
